import Mathlib

/-!
Verification of the opengov-bot Discord test double.

This file gives a shallow embedding, in Lean 4, of the mock Discord object
model and the test-environment operations of the repository (the files under
bot/test/mocks and bot/test/core), and proves or refutes the frozen claims
about them.  Machine integers are modelled as Nat or Int (no overflow is
possible in the source: Python integers are unbounded), Python floats
resulting from true division are modelled as Rat (all divisions in the source
are exact at the inputs of interest), fallible operations return Except, and
the asyncio task loop is modelled as an explicit step function on its state.
Python string scanning (str.split, str.startswith, and the two regular
expressions of the feedback command) is modelled by structural functions on
List Char so that everything evaluates inside the kernel.
-/

/-- Model of MockUser (mocks/user.py): id, name, bot flag. -/
structure MockUser where
  id : Nat
  name : String
  bot : Bool
deriving DecidableEq

/-- Model of MockRole (mocks/role.py): id, name, position. -/
structure MockRole where
  id : Nat
  name : String
  position : Int
deriving DecidableEq

/-- Model of MockMember (mocks/member.py): a MockUser plus a list of role
references.  Python object identity of shared MockRole references is modelled
by role-id equality (distinct role objects never share an id in the
environment, ids being auto-incremented). -/
structure MockMember where
  id : Nat
  name : String
  bot : Bool
  roles : List MockRole
deriving DecidableEq

/-- Model of MockForumTag (mocks/forum_tag.py): id and name.  The id is an
Int because the dual-key equality of the source compares it against arbitrary
Python integers. -/
structure MockForumTag where
  id : Int
  name : String
deriving DecidableEq

/-- Model of MockMessage (mocks/message.py): id, content, author.
Attachments, embeds, timestamps and reactions are not needed by any claim and
are omitted; the author is recorded as a bare MockUser exactly as the source
stores either a synthesized bot user or the member object. -/
structure MockMessage where
  id : Nat
  content : String
  author : MockUser
deriving DecidableEq

/-- Model of MockThread (mocks/thread.py): id, name, cached parent id,
messages, applied tags.  MockThread.__init__ sets parent_id to the parent
channel's id.  parentId is an Option Nat: it is none for the stub threads the
mock feedback command creates through MagicMock, whose parent_id attribute is
never assigned an integer. -/
structure MockThread where
  id : Nat
  name : String
  parentId : Option Nat
  messages : List MockMessage
  appliedTags : List MockForumTag
deriving DecidableEq

/-- Model of MockTextChannel and its specialization MockForumChannel
(mocks/channel.py, mocks/forum_channel.py) in one structure: the forum-only
fields (availableTags, posts, restrictedTo) are empty for plain text
channels, mirroring the absent attributes of the Python objects. -/
structure MockChannel where
  id : Nat
  name : String
  messages : List MockMessage
  threads : List MockThread
  availableTags : List MockForumTag
  restrictedTo : List MockRole
  posts : List (Nat × MockThread)
deriving DecidableEq

/-- Model of MockGuild (mocks/guild.py): id, name and the insertion-ordered
collections of channels, members and roles. -/
structure MockGuild where
  id : Nat
  name : String
  channels : List MockChannel
  members : List MockMember
  roles : List MockRole
deriving DecidableEq

/-- Model of MockBot (mocks/bot.py) restricted to its guild list; the
command/listener tables are modelled separately (see process_command and
trigger_event below) so handlers can stay first-order. -/
structure MockBot where
  guilds : List MockGuild
deriving DecidableEq

/-- The synthesized bot author MockUser(0, "Bot", True) used by
MockTextChannel.send and MockThread.send when no author is supplied. -/
def botUser : MockUser := { id := 0, name := "Bot", bot := true }

/-- MockThread.send (mocks/thread.py lines 42-59): appends a MockMessage
whose id is len(messages) + 1 and returns the updated thread and message. -/
def MockThread.send (t : MockThread) (content : String) (author : MockUser) :
    MockThread × MockMessage :=
  let m : MockMessage := { id := t.messages.length + 1, content := content, author := author }
  ({ t with messages := t.messages ++ [m] }, m)

/-- Lookup in a Python dict modelled as an insertion-ordered association
list: dict[k] is the value of the LAST binding of k (later add_* calls with a
colliding name overwrite the dict entry). -/
def dictGet (d : List (String × α)) (k : String) : Option α :=
  d.foldl (fun acc p => if p.1 == k then some p.2 else acc) none

/-- JamDaoDiscordTestEnvironment.get_quorum_eligible_users
(test_env_jam_dao.py lines 123-137): every member of the users dict holding
the dao-team-representative role, in dict iteration order; the inner
role loop breaks on the first match, which is List.any. -/
def get_quorum_eligible_users (users : List (String × MockMember)) : List MockMember :=
  (users.filter (fun p => p.2.roles.any (fun r => r.name == "dao-team-representative"))).map
    (fun p => p.2)

/-- JamDaoDiscordTestEnvironment.calculate_quorum_percentage
(test_env_jam_dao.py lines 139-153): 0.0 when there are no eligible users,
otherwise (votes_count / len(eligible_users)) * 100.0.  Python float true
division is modelled as exact Rat division. -/
def calculate_quorum_percentage (users : List (String × MockMember)) (votes_count : Int) : Rat :=
  let eligible_users := get_quorum_eligible_users users
  if eligible_users.isEmpty then 0
  else ((votes_count : Rat) / (eligible_users.length : Rat)) * 100

/-- A Python value a MockForumTag can be compared against with ==:
another tag, a str, an int, or a value of any other kind. -/
inductive PyValue where
  | tag (t : MockForumTag)
  | str (s : String)
  | int (n : Int)
  | otherKind
deriving DecidableEq

/-- MockForumTag.__eq__ (mocks/forum_tag.py lines 21-28): equal to a tag with
the same id, to a string equal to its name, to an int equal to its id, and to
nothing else. -/
def MockForumTag.eq (t : MockForumTag) : PyValue → Bool
  | .tag t2 => t.id == t2.id
  | .str s => t.name == s
  | .int n => t.id == n
  | .otherKind => false

/-- MockGuild.get_channel (mocks/guild.py lines 38-44): linear scan,
first channel with the given id, None if absent. -/
def MockGuild.get_channel (g : MockGuild) (channel_id : Nat) : Option MockChannel :=
  g.channels.find? (fun c => c.id == channel_id)

/-- MockGuild.get_member (mocks/guild.py lines 45-50): linear scan,
first member with the given id, None if absent. -/
def MockGuild.get_member (g : MockGuild) (user_id : Nat) : Option MockMember :=
  g.members.find? (fun m => m.id == user_id)

/-- MockBot.get_guild (mocks/bot.py lines 30-35): linear scan, first guild
with the given id, None if absent. -/
def MockBot.get_guild (b : MockBot) (guild_id : Nat) : Option MockGuild :=
  b.guilds.find? (fun g => g.id == guild_id)

/-- The users of the JAM DAO fixture (fixtures/config_jam_dao.py USERS) that
matter for quorum arithmetic: this is the users dict of the environment after
setup_jam_dao_structure, with the fixture's auto-assigned ids (301...) and
shared role references (role ids 11...). -/
def jamRepRole : MockRole := { id := 12, name := "dao-team-representative", position := 7 }

def jamAdminRole : MockRole := { id := 11, name := "Admin", position := 8 }

def jamParticipantRole : MockRole := { id := 13, name := "dao-participant", position := 6 }

def jamUsers : List (String × MockMember) :=
  [("admin_user", { id := 301, name := "admin_user", bot := false, roles := [jamAdminRole] }),
   ("dao_rep1", { id := 302, name := "dao_rep1", bot := false, roles := [jamRepRole] }),
   ("dao_rep2", { id := 303, name := "dao_rep2", bot := false, roles := [jamRepRole] }),
   ("dao_rep3", { id := 304, name := "dao_rep3", bot := false, roles := [jamRepRole] }),
   ("dao_rep4", { id := 305, name := "dao_rep4", bot := false, roles := [jamRepRole] }),
   ("dao_rep5", { id := 306, name := "dao_rep5", bot := false, roles := [jamRepRole] }),
   ("participant1", { id := 307, name := "participant1", bot := false,
                      roles := [jamParticipantRole] }),
   ("participant2", { id := 308, name := "participant2", bot := false,
                      roles := [jamParticipantRole] }),
   ("participant3", { id := 309, name := "participant3", bot := false,
                      roles := [jamParticipantRole] })]

/-- One operation on the message list of a channel or thread:
send appends a message (MockTextChannel.send, MockThread.send and the
initial message of MockForumChannel.create_post all assign
id = len(messages) + 1 and append), and deleteAt i removes the message at
position i (MockMessage.delete calls list.remove(self), which deletes the
message object at its own position). -/
inductive ChanOp where
  | send (content : String)
  | deleteAt (i : Nat)
deriving DecidableEq

/-- Apply one ChanOp to a message list, mirroring the id assignment
msg_id = len(self.messages) + 1 of the send methods and the
self.channel.messages.remove(self) of MockMessage.delete. -/
def applyChanOp (msgs : List MockMessage) : ChanOp → List MockMessage
  | .send content => msgs ++ [{ id := msgs.length + 1, content := content, author := botUser }]
  | .deleteAt i => msgs.eraseIdx i

/-- Run a sequence of sends and deletions on an initially empty channel or
thread. -/
def runChanOps (ops : List ChanOp) : List MockMessage :=
  ops.foldl applyChanOp []

/-- The error taxonomy of the test environment: ValueError for lookup
failures, PermissionError for gate failures, IndexError for the out-of-range
list access in MockBot.process_command. -/
inductive BotError where
  | valueError (msg : String)
  | permissionError (msg : String)
  | indexError
deriving DecidableEq

/-- Python str.split() with no separator: split on runs of whitespace and
drop empty tokens.  Structural accumulator version over List Char. -/
def pyTokensAux : List Char → List Char → List (List Char)
  | [], acc => if acc.isEmpty then [] else [acc.reverse]
  | c :: rest, acc =>
    if c.isWhitespace then
      if acc.isEmpty then pyTokensAux rest [] else acc.reverse :: pyTokensAux rest []
    else pyTokensAux rest (c :: acc)

/-- Python content.split() for the characters after the command prefix. -/
def pySplitWs (s : List Char) : List String :=
  (pyTokensAux s []).map (fun l => String.mk l)

/-- The body MockBot.process_command runs once the prefix has matched:
cmd_parts = content[1:].split(); cmd_parts[0] raises IndexError when there is
no token; a registered first token invokes its handler, an unregistered one
is a no-op. -/
def process_command_body (commands : List (String × Nat)) (rest : List Char) :
    Except BotError (Option Nat) :=
  match pySplitWs rest with
  | [] => .error .indexError
  | cmd_name :: _ =>
    match dictGet commands cmd_name with
    | some h => .ok (some h)
    | none => .ok none

/-- MockBot.process_command (mocks/bot.py lines 60-75).  Handlers are
modelled as Nat tags in the command table: the result is ok (some h) when
handler h was invoked, ok none when the call was a no-op, and
error indexError when cmd_parts[0] raises (content[1:].split() empty). -/
def process_command (commands : List (String × Nat)) (content : String) :
    Except BotError (Option Nat) :=
  match content.toList with
  | [] => .ok none
  | c :: rest => if c == '!' then process_command_body commands rest else .ok none

/-- MockBot.trigger_event (mocks/bot.py): invoke the single registered event
handler if any, then every listener in registration order; handlers are Nat
tags, and the returned list is the invocation sequence. -/
def trigger_event (event_handlers : List (String × Nat)) (listeners : List (String × List Nat))
    (event_name : String) : List Nat :=
  (match dictGet event_handlers event_name with
   | some h => [h]
   | none => []) ++
  (match dictGet listeners event_name with
   | some ls => ls
   | none => [])

/-- State of MockTaskLoop (mocks/task.py): the _running flag and whether an
asyncio task has been created (_task is not None). -/
structure MockTaskLoopState where
  running : Bool
  hasTask : Bool
deriving DecidableEq

/-- A fresh MockTaskLoop: _running = False, _task = None. -/
def taskInit : MockTaskLoopState := { running := false, hasTask := false }

/-- The operations observable on a MockTaskLoop under the cooperative
scheduler: start(), stop(), and tick, one wake-up of the _run loop (the
while-condition check followed, when _running holds, by one callback
invocation). -/
inductive TaskOp where
  | start
  | stop
  | tick
deriving DecidableEq

/-- One step of MockTaskLoop.  start sets _running and creates the task;
stop clears _running (and cancels the task, which only matters for hasTask);
tick checks _running first and invokes the callback only when it holds: the
Bool result is whether the callback was invoked in this step. -/
def taskStep (s : MockTaskLoopState) : TaskOp → MockTaskLoopState × Bool
  | .start => ({ running := true, hasTask := true }, false)
  | .stop => ({ s with running := false }, false)
  | .tick => (s, s.running)

/-- Run a sequence of task operations, collecting the callback-invocation
flag of every step. -/
def runTask : MockTaskLoopState → List TaskOp → MockTaskLoopState × List Bool
  | s, [] => (s, [])
  | s, op :: ops =>
    let p := taskStep s op
    let q := runTask p.1 ops
    (q.1, p.2 :: q.2)

/-- The author identity a MockMember presents when stored as a message
author. -/
def MockMember.toUser (m : MockMember) : MockUser :=
  { id := m.id, name := m.name, bot := m.bot }

/-- A single-quote character as a string, used to spell the source's
messages without a literal apostrophe. -/
def apos : String := String.mk [Char.ofNat 39]

/-- MockTextChannel.create_thread (mocks/channel.py): thread id is
len(threads) + 1, parent is the channel itself. -/
def MockChannel.create_thread (c : MockChannel) (name : String) : MockChannel × MockThread :=
  let thread_id := c.threads.length + 1
  let t : MockThread := { id := thread_id, name := name, parentId := some c.id,
                          messages := [], appliedTags := [] }
  ({ c with threads := c.threads ++ [t] }, t)

/-- MockForumChannel.create_post (mocks/forum_channel.py lines 29-57):
thread id is len(posts) + 1000, the thread is registered in both posts and
threads, its first message gets id len(messages) + 1 = 1, and the given tags
are assigned as applied_tags without validation. -/
def MockChannel.create_post (c : MockChannel) (title content : String) (author : MockUser)
    (tags : List MockForumTag) : MockChannel × MockThread :=
  let thread_id := c.posts.length + 1000
  let msg : MockMessage := { id := 1, content := content, author := author }
  let t : MockThread := { id := thread_id, name := title, parentId := some c.id,
                          messages := [msg], appliedTags := tags }
  ({ c with posts := c.posts ++ [(thread_id, t)], threads := c.threads ++ [t] }, t)

/-- The role gate of JamDaoDiscordTestEnvironment.add_vote_to_referendum
(test_env_jam_dao.py lines 89-121): any role named dao-team-representative
or Admin. -/
def has_vote_permission (author : MockMember) : Bool :=
  author.roles.any (fun r => r.name == "dao-team-representative" || r.name == "Admin")

/-- The constant tail of the PermissionError message of
add_vote_to_referendum. -/
def voteDeniedTail : String :=
  " does not have permission to vote. Only users with dao-team-representative role can vote."

/-- The PermissionError message of add_vote_to_referendum. -/
def voteDeniedMsg (author_name : String) : String :=
  "User " ++ (author_name ++ voteDeniedTail)

/-- JamDaoDiscordTestEnvironment.add_vote_to_referendum (test_env_jam_dao.py
lines 89-121): user lookup, role gate, then Thread.send with the voter as
author. -/
def add_vote_to_referendum (users : List (String × MockMember)) (thread : MockThread)
    (vote_content author_name : String) : Except BotError (MockThread × MockMessage) :=
  match dictGet users author_name with
  | none => .error (.valueError ("User " ++ author_name ++ " not found"))
  | some author =>
    if has_vote_permission author then .ok (thread.send vote_content author.toUser)
    else .error (.permissionError (voteDeniedMsg author_name))

/-- The PermissionError message of DiscordTestEnvironment.create_forum_post. -/
def postDeniedMsg (author_name forum_name : String) : String :=
  "User " ++ author_name ++ " does not have permission to post in " ++ forum_name

/-- DiscordTestEnvironment.create_forum_post (test_env_generic.py lines
168-211): forum lookup by name, author lookup by name, role-overlap gate
against a non-empty restriction set (Python object identity of shared role
references is id equality), resolution of tag names against the forum's
available tags dropping unknown names, then MockForumChannel.create_post.
The Python membership test of the tag-conversion guard (tags truthy and
available_tags truthy) is extensionally the same flatMap-filter. -/
def create_forum_post (forums : List (String × MockChannel)) (users : List (String × MockMember))
    (title content forum_name author_name : String) (tags : List String) :
    Except BotError (MockChannel × MockThread) :=
  match dictGet forums forum_name with
  | none => .error (.valueError ("Forum channel " ++ forum_name ++ " not found"))
  | some forum =>
    match dictGet users author_name with
    | none => .error (.valueError ("User " ++ author_name ++ " not found"))
    | some author =>
      if !forum.restrictedTo.isEmpty &&
         !(author.roles.any (fun r => forum.restrictedTo.any (fun rr => rr.id == r.id))) then
        .error (.permissionError (postDeniedMsg author_name forum_name))
      else
        .ok (forum.create_post title content author.toUser
          (tags.flatMap (fun tn => forum.availableTags.filter (fun a => a.name == tn))))

/-- The role gate of the mock feedback command (mocks/feedback_command.py
lines 27-41): any role named dao-team-representative or Admin. -/
def has_representative_role (user : MockMember) : Bool :=
  user.roles.any (fun r => r.name == "dao-team-representative" || r.name == "Admin")

/-- Does the pattern occur as a contiguous substring? -/
def listInfix (pat : List Char) : List Char → Bool
  | [] => pat.isEmpty
  | c :: rest => pat.isPrefixOf (c :: rest) || listInfix pat rest

/-- Python sub in s for strings. -/
def containsSub (s pat : String) : Bool := listInfix pat.toList s.toList

/-- The regex search re.search(r..., thread_name) for the anchored pattern
hash-optional digits colon: an optional leading # is skipped, then the
maximal leading digit run is taken and must be nonempty and followed by a
colon; the returned group is the digit run.  (The backtracking of the
regex engine collapses to this because a colon is not a digit; the digit
class is modelled as the ASCII digits, the only ones the fixtures use.) -/
def extractRefNumberL (s : List Char) : Option (List Char) :=
  let s2 := if s.head? == some '#' then s.tail else s
  let digits := s2.takeWhile Char.isDigit
  if digits.isEmpty then none
  else if (s2.dropWhile Char.isDigit).head? == some ':' then some digits
  else none

/-- String version of extractRefNumberL. -/
def extractRefNumber (s : String) : Option String :=
  (extractRefNumberL s.toList).map (fun l => String.mk l)

/-- The locator regex re.match for the anchored pattern Ref, one-or-more
whitespace, the referendum number, colon: literal Ref, a nonempty maximal
whitespace run, then the number followed by a colon.  (Maximality loses no
matches because the number starts with a digit, which is not whitespace.) -/
def matchesRefPatternL (num : List Char) (s : List Char) : Bool :=
  match s with
  | 'R' :: 'e' :: 'f' :: rest =>
    !(rest.takeWhile Char.isWhitespace).isEmpty &&
      (num ++ [':']).isPrefixOf (rest.dropWhile Char.isWhitespace)
  | _ => false

/-- String version of matchesRefPatternL. -/
def matchesRefPattern (num : String) (s : String) : Bool :=
  matchesRefPatternL num.toList s.toList

/-- Replace the first element satisfying p, leaving the rest unchanged:
the functional content of mutating the object found by a linear scan. -/
def updateFirst (p : α → Bool) (f : α → α) : List α → List α
  | [] => []
  | x :: xs => if p x then f x :: xs else x :: updateFirst p f xs

/-- The feedback message append of mock_feedback (feedback_command.py lines
123-146): a MockMessage with id len(messages) + 1, content prefixed
with the feedback marker, authored by the synthesized JAM-DAO-Bot user. -/
def appendFeedbackMsg (t : MockThread) (message : String) : MockThread :=
  { t with messages := t.messages ++
      [{ id := t.messages.length + 1, content := "**Feedback:** " ++ message,
         author := { id := 0, name := "JAM-DAO-Bot", bot := true } }] }

/-- The lazily created public-discussions thread of mock_feedback
(feedback_command.py lines 113-121): a MagicMock given only name
"Ref " + thread_name, id len(threads) + 1000, empty messages and the guild;
its parent_id is never assigned an integer, hence parentId = none. -/
def feedbackStubThread (c : MockChannel) (thread_name : String) : MockThread :=
  { id := c.threads.length + 1000, name := "Ref " ++ thread_name, parentId := none,
    messages := [], appliedTags := [] }

/-- Locate-or-create inside the public-discussions channel: append the
feedback message to the first thread matching the locator pattern, or create
the stub thread, append it to the channel and put the message there. -/
def postFeedbackInChannel (c : MockChannel) (number thread_name message : String) : MockChannel :=
  match c.threads.find? (fun t => matchesRefPattern number t.name) with
  | some _ =>
    let upd := updateFirst (fun t => matchesRefPattern number t.name)
      (fun t => appendFeedbackMsg t message) c.threads
    { c with threads := upd }
  | none =>
    let stub := appendFeedbackMsg (feedbackStubThread c thread_name) message
    { c with threads := c.threads ++ [stub] }

/-- The configuration object consumed by mock_feedback: the id of the
referendas forum channel. -/
structure FeedbackConfig where
  DISCORD_FORUM_CHANNEL_ID : Nat
deriving DecidableEq

/-- The channel an interaction originates from: a thread (has a parent_id
attribute) or a plain channel (does not). -/
inductive InteractionChannel where
  | thread (t : MockThread)
  | channel (c : MockChannel)
deriving DecidableEq

/-- The observable outcome of mock_feedback: the single followup.send reply
(content and ephemeral flag), the updated guild, and, when a public_thread
argument was supplied, that thread with the feedback appended. -/
structure FeedbackResult where
  replyContent : String
  ephemeral : Bool
  guild : MockGuild
  postedThread : Option MockThread
deriving DecidableEq

/-- The permission-denial reply of mock_feedback. -/
def feedbackDeniedMsg : String :=
  "You don" ++ apos ++ "t have permission to use this command. " ++
    "Only users with the @dao-team-representative role can provide feedback."

/-- The not-in-a-referendas-thread reply of mock_feedback. -/
def feedbackScopeMsg : String :=
  "This command can only be used in threads within the #referendas channel."

/-- The no-referendum-number reply of mock_feedback. -/
def feedbackNoNumberMsg : String :=
  "Could not determine the referendum number from this thread" ++ apos ++ "s name."

/-- The missing public-discussions channel reply of mock_feedback. -/
def feedbackNoChannelMsg : String :=
  "Error: Could not find the public-discussions channel"

/-- The success reply of mock_feedback. -/
def feedbackSuccessMsg : String :=
  "Your feedback has been anonymously posted to the public-discussions channel."

/-- The guild after the locate-or-create posting of the feedback message:
the first channel named public-discussions is updated in place. -/
def feedbackGuildUpdate (guild : MockGuild) (num tname message : String) : MockGuild :=
  let upd := updateFirst (fun c => c.name == "public-discussions")
    (fun c => postFeedbackInChannel c num tname message) guild.channels
  { guild with channels := upd }

/-- mock_feedback (mocks/feedback_command.py lines 14-157).  In order: the
representative/Admin role gate answered by a non-raising ephemeral reply;
the thread check (a plain channel has no parent_id attribute); the parent_id
check against the configured forum id; referendum-number extraction from the
thread name; then either the supplied public_thread is used directly, or the
public-discussions channel is searched for a thread matching the locator
pattern, lazily creating the stub thread.  Every reply is ephemeral.  The
function catches every exception, so it is total; no call path raises. -/
def mock_feedback (user : MockMember) (ichan : InteractionChannel) (message : String)
    (config : FeedbackConfig) (guild : MockGuild) (public_thread : Option MockThread) :
    FeedbackResult :=
  if has_representative_role user then
    match ichan with
    | .channel _ => ⟨feedbackScopeMsg, true, guild, none⟩
    | .thread t =>
      if t.parentId == some config.DISCORD_FORUM_CHANNEL_ID then
        match extractRefNumber t.name with
        | some number =>
          match public_thread with
          | some pt => ⟨feedbackSuccessMsg, true, guild, some (appendFeedbackMsg pt message)⟩
          | none =>
            match guild.channels.find? (fun c => c.name == "public-discussions") with
            | some _ =>
              ⟨feedbackSuccessMsg, true, feedbackGuildUpdate guild number t.name message, none⟩
            | none => ⟨feedbackNoChannelMsg, true, guild, none⟩
        | none => ⟨feedbackNoNumberMsg, true, guild, none⟩
      else ⟨feedbackScopeMsg, true, guild, none⟩
  else ⟨feedbackDeniedMsg, true, guild, none⟩

/-- Witness guild for C10: two channels sharing id 101 (insertion order
decides) and one member. -/
def w10Chan1 : MockChannel :=
  { id := 101, name := "general", messages := [], threads := [],
    availableTags := [], restrictedTo := [], posts := [] }

def w10Chan2 : MockChannel :=
  { id := 101, name := "dup", messages := [], threads := [],
    availableTags := [], restrictedTo := [], posts := [] }

def w10Guild : MockGuild :=
  { id := 1, name := "Test Server",
    channels := [w10Chan1, w10Chan2],
    members := [{ id := 301, name := "admin_user", bot := false, roles := [] }],
    roles := [] }

def w10Bot : MockBot := { guilds := [w10Guild] }

/-- Witness forum for C3/C4: the referendas forum with two available tags,
restricted to dao-team-representative. -/
def w4Forum : MockChannel :=
  { id := 201, name := "referendas", messages := [], threads := [],
    availableTags := [{ id := 101, name := "MediumSpender" },
                      { id := 104, name := "SmallSpender" }],
    restrictedTo := [jamRepRole], posts := [] }

def w4Forums : List (String × MockChannel) := [("referendas", w4Forum)]

def w3Thread : MockThread :=
  { id := 1000, name := "123: Treasury Spend", parentId := some 201,
    messages := [], appliedTags := [] }

/-- The participant1 member of the JAM DAO fixture, and the feedback
configuration pointing at the referendas forum id. -/
def w3Participant : MockMember :=
  { id := 307, name := "participant1", bot := false, roles := [jamParticipantRole] }

def w3Config : FeedbackConfig := { DISCORD_FORUM_CHANNEL_ID := 201 }

def w5User : MockMember :=
  { id := 302, name := "dao_rep1", bot := false, roles := [jamRepRole] }

def w5Pub : MockChannel :=
  { id := 203, name := "public-discussions", messages := [], threads := [],
    availableTags := [], restrictedTo := [], posts := [] }

def w5Guild : MockGuild :=
  { id := 1, name := "Test Server", channels := [w5Pub], members := [], roles := [] }

def w5Thread : MockThread :=
  { id := 1000, name := "123: Treasury Spend", parentId := some 201,
    messages := [], appliedTags := [] }

def w5HashThread : MockThread :=
  { id := 1001, name := "#123: Treasury Spend", parentId := some 201,
    messages := [], appliedTags := [] }

/-! ## Theorems -/

/-- Generic characterization of the by-id linear scans of the mock object
graph: scanning for key x == target returns none exactly when no element has
the key, and otherwise the first element with the key in insertion order. -/
theorem find_by_id_spec {α : Type} (key : α → Nat) (l : List α) (target : Nat) :
    ((∀ x ∈ l, key x ≠ target) → l.find? (fun x => key x == target) = none) ∧
    (∀ x, l.find? (fun x => key x == target) = some x → key x = target ∧
      ∃ i, ∃ hi : i < l.length, l.get ⟨i, hi⟩ = x ∧
        ∀ j, ∀ hj : j < i, key (l.get ⟨j, Nat.lt_trans hj hi⟩) ≠ target) := by
  constructor
  · intro h
    rw [List.find?_eq_none]
    intro x hx
    simp [h x hx]
  · intro x hfind
    have hkey : key x = target := by simpa using List.find?_some hfind
    refine ⟨hkey, ?_⟩
    rw [List.find?_eq_some_iff_getElem] at hfind
    obtain ⟨hpx, i, hi, hgi, hj⟩ := hfind
    refine ⟨i, hi, ?_, ?_⟩
    · simpa [List.get_eq_getElem] using hgi
    · intro j hj2
      have := hj j hj2
      simpa [List.get_eq_getElem] using this

/-- C1: for every test environment, calculate_quorum_percentage(votes_count)
is votes_count / max(1, eligible_count) * 100 where eligible_count is the
number of members holding dao-team-representative, and it is exactly 0
whenever there are zero eligible members, for every votes_count. -/
theorem quorum_percentage_formula (users : List (String × MockMember)) (votes_count : Int) :
    calculate_quorum_percentage users votes_count =
      if (get_quorum_eligible_users users).length = 0 then 0
      else ((votes_count : Rat) / ((max 1 (get_quorum_eligible_users users).length : Nat) : Rat))
             * 100 := by
  by_cases h : (get_quorum_eligible_users users).length = 0
  · have he : get_quorum_eligible_users users = [] := List.length_eq_zero.mp h
    simp [calculate_quorum_percentage, he, h]
  · have hne : (get_quorum_eligible_users users).isEmpty = false := by
      match he : get_quorum_eligible_users users with
      | [] => exact absurd (by simp [he]) h
      | a :: l => rfl
    have hmax : max 1 (get_quorum_eligible_users users).length =
        (get_quorum_eligible_users users).length := by omega
    simp only [calculate_quorum_percentage, hne, Bool.false_eq_true, if_false, if_neg h, hmax]

/-- Witness for C1 at the JAM DAO fixture: with the fixture's 5 members
holding dao-team-representative, calculate_quorum_percentage 3 = 60, and with
no users at all it is 0. -/
theorem quorum_percentage_formula_witness :
    calculate_quorum_percentage jamUsers 3 = 60 ∧ calculate_quorum_percentage [] 7 = 0 := by
  constructor
  · have h := quorum_percentage_formula jamUsers 3
    rw [h]
    have hl : (get_quorum_eligible_users jamUsers).length = 5 := by decide
    rw [hl]
    norm_num
  · have h := quorum_percentage_formula [] 7
    rw [h]
    norm_num [get_quorum_eligible_users]

/-- C8: ForumTag equality is dual-keyed: equal to a tag exactly when ids
agree, to a string exactly when it is the name, to an int exactly when it is
the id, and to no value of any other kind. -/
theorem forum_tag_dual_key_equality (t1 t2 : MockForumTag) (s : String) (n : Int) :
    (t1.eq (.tag t2) = true ↔ t1.id = t2.id) ∧
    (t1.eq (.str s) = true ↔ t1.name = s) ∧
    (t1.eq (.int n) = true ↔ t1.id = n) ∧
    t1.eq .otherKind = false := by
  refine ⟨?_, ?_, ?_, rfl⟩ <;> simp [MockForumTag.eq]

/-- Witness for C8 at concrete tags: SmallSpender (id 104) compared against a
same-id tag, its own name, a wrong name, its id, a wrong id, and a value of
another kind. -/
theorem forum_tag_dual_key_equality_witness :
    ({ id := 104, name := "SmallSpender" : MockForumTag}.eq
        (.tag { id := 104, name := "Different" }) = true) ∧
    ({ id := 104, name := "SmallSpender" : MockForumTag}.eq (.str "SmallSpender") = true) ∧
    ({ id := 104, name := "SmallSpender" : MockForumTag}.eq (.str "BigSpender") = false) ∧
    ({ id := 104, name := "SmallSpender" : MockForumTag}.eq (.int 104) = true) ∧
    ({ id := 104, name := "SmallSpender" : MockForumTag}.eq (.int 105) = false) ∧
    ({ id := 104, name := "SmallSpender" : MockForumTag}.eq .otherKind = false) := by
  refine ⟨?_, ?_, ?_, ?_, ?_, ?_⟩
  · exact (forum_tag_dual_key_equality { id := 104, name := "SmallSpender" }
      { id := 104, name := "Different" } "" 0).1.mpr (by decide)
  all_goals decide

/-- C10: lookup by id is total and non-raising: Guild.get_channel,
Guild.get_member and Bot.get_guild return none when no entity has the id,
and the first entity with the id in insertion order when one does. -/
theorem lookup_by_id_total_first (g : MockGuild) (b : MockBot) (cid uid gid : Nat) :
    ((∀ c ∈ g.channels, c.id ≠ cid) → g.get_channel cid = none) ∧
    (∀ c, g.get_channel cid = some c → c.id = cid ∧
      ∃ i, ∃ hi : i < g.channels.length, g.channels.get ⟨i, hi⟩ = c ∧
        ∀ j, ∀ hj : j < i, (g.channels.get ⟨j, Nat.lt_trans hj hi⟩).id ≠ cid) ∧
    ((∀ m ∈ g.members, m.id ≠ uid) → g.get_member uid = none) ∧
    (∀ m, g.get_member uid = some m → m.id = uid ∧
      ∃ i, ∃ hi : i < g.members.length, g.members.get ⟨i, hi⟩ = m ∧
        ∀ j, ∀ hj : j < i, (g.members.get ⟨j, Nat.lt_trans hj hi⟩).id ≠ uid) ∧
    ((∀ x ∈ b.guilds, x.id ≠ gid) → b.get_guild gid = none) ∧
    (∀ x, b.get_guild gid = some x → x.id = gid ∧
      ∃ i, ∃ hi : i < b.guilds.length, b.guilds.get ⟨i, hi⟩ = x ∧
        ∀ j, ∀ hj : j < i, (b.guilds.get ⟨j, Nat.lt_trans hj hi⟩).id ≠ gid) := by
  unfold MockGuild.get_channel MockGuild.get_member MockBot.get_guild
  exact ⟨(find_by_id_spec (fun c : MockChannel => c.id) g.channels cid).1,
         (find_by_id_spec (fun c : MockChannel => c.id) g.channels cid).2,
         (find_by_id_spec (fun m : MockMember => m.id) g.members uid).1,
         (find_by_id_spec (fun m : MockMember => m.id) g.members uid).2,
         (find_by_id_spec (fun x : MockGuild => x.id) b.guilds gid).1,
         (find_by_id_spec (fun x : MockGuild => x.id) b.guilds gid).2⟩

/-- Witness for C10 at a concrete guild and bot: an absent channel id gives
none, a present (duplicated) id gives the first channel in insertion order,
an absent member id gives none, and an absent guild id gives none. -/
theorem lookup_by_id_total_first_witness :
    w10Guild.get_channel 999 = none ∧
    (∀ c, w10Guild.get_channel 101 = some c → c.id = 101) ∧
    w10Guild.get_channel 101 = some w10Chan1 ∧
    w10Guild.get_member 555 = none ∧
    w10Bot.get_guild 2 = none := by
  refine ⟨?_, ?_, ?_, ?_, ?_⟩
  · exact (lookup_by_id_total_first w10Guild w10Bot 999 0 0).1 (by decide)
  · intro c hc
    exact (((lookup_by_id_total_first w10Guild w10Bot 101 0 0).2.1) c hc).1
  · decide
  · exact (lookup_by_id_total_first w10Guild w10Bot 0 555 0).2.2.1 (by decide)
  · exact (lookup_by_id_total_first w10Guild w10Bot 0 0 2).2.2.2.2.1 (by decide)

/-- C2 as stated is false: after send, send, delete-first, send, the channel
holds two messages with id 2, so ids assigned by send are not strictly
increasing across the whole sequence and are not unique in the container. -/
theorem message_ids_not_unique_after_delete :
    ((runChanOps [ChanOp.send "a", ChanOp.send "b", ChanOp.deleteAt 0, ChanOp.send "c"]).map
        (fun m => m.id) = [2, 2]) ∧
    ¬ ((runChanOps [ChanOp.send "a", ChanOp.send "b", ChanOp.deleteAt 0, ChanOp.send "c"]).map
        (fun m => m.id)).Nodup := by
  constructor
  · rfl
  · decide

/-- In a run of sends with no deletions, starting from any message list, the
ids are the existing ids followed by length+1, length+2, ... . -/
theorem sends_assign_sequential_ids (cs : List String) :
    ∀ msgs : List MockMessage,
      ((cs.map ChanOp.send).foldl applyChanOp msgs).map (fun m => m.id) =
        msgs.map (fun m => m.id) ++ List.range' (msgs.length + 1) cs.length := by
  induction cs with
  | nil => intro msgs; simp
  | cons c cs ih =>
    intro msgs
    simp only [List.map_cons, List.foldl_cons]
    rw [show applyChanOp msgs (ChanOp.send c)
          = msgs ++ [{ id := msgs.length + 1, content := c, author := botUser }] from rfl]
    rw [ih]
    simp [List.range'_succ, List.append_assoc]

/-- C2 amended: in every sequence of sends with no interleaved deletion, the
ids assigned within one channel or thread are exactly 1, 2, ..., n: strictly
increasing from 1, hence unique.  (A deletion followed by a send reuses
len+1, breaking the claim as originally stated.) -/
theorem message_ids_sequential_without_delete (contents : List String) :
    ((runChanOps (contents.map ChanOp.send)).map (fun m => m.id) =
       List.range' 1 contents.length) ∧
    ((runChanOps (contents.map ChanOp.send)).map (fun m => m.id)).Nodup ∧
    List.Chain' (· < ·) ((runChanOps (contents.map ChanOp.send)).map (fun m => m.id)) := by
  have h := sends_assign_sequential_ids contents []
  simp only [runChanOps]
  simp only [List.map_nil, List.length_nil, Nat.zero_add, List.nil_append] at h
  refine ⟨h, ?_, ?_⟩
  · rw [h]; exact List.nodup_range' _ _
  · rw [h]
    exact (List.pairwise_lt_range' _ _).chain'

/-- Helper for C7: starting from any stopped state, a run containing no
start never invokes the callback. -/
theorem no_invocation_while_stopped (ops : List TaskOp) :
    ∀ s : MockTaskLoopState, s.running = false →
      ops.all (fun o => o != TaskOp.start) = true →
      ∀ inv ∈ (runTask s ops).2, inv = false := by
  induction ops with
  | nil =>
    intro s hs ha inv hinv
    simp [runTask] at hinv
  | cons op ops ih =>
    intro s hs ha inv hinv
    simp only [List.all_cons, Bool.and_eq_true] at ha
    cases op with
    | start => simp at ha
    | stop =>
      simp only [runTask, taskStep, List.mem_cons] at hinv
      rcases hinv with h | h
      · exact h
      · exact ih { s with running := false } rfl ha.2 inv h
    | tick =>
      simp only [runTask, taskStep, List.mem_cons, hs] at hinv
      rcases hinv with h | h
      · exact h
      · exact ih s hs ha.2 inv h

/-- C7: the sequence start then stop takes is_running from false to true to
false; stop is idempotent and safe before start (a no-op on the initial
state); and after a stop, as long as no start intervenes, no step invokes
the callback. -/
theorem task_loop_start_stop (s : MockTaskLoopState) (ops : List TaskOp) :
    (taskInit.running = false ∧
     (taskStep taskInit .start).1.running = true ∧
     (taskStep (taskStep taskInit .start).1 .stop).1.running = false) ∧
    ((taskStep (taskStep s .stop).1 .stop).1 = (taskStep s .stop).1) ∧
    ((taskStep taskInit .stop).1 = taskInit) ∧
    (ops.all (fun o => o != TaskOp.start) = true →
      ∀ inv ∈ (runTask (taskStep s .stop).1 ops).2, inv = false) := by
  refine ⟨⟨rfl, rfl, rfl⟩, rfl, rfl, ?_⟩
  intro ha
  exact no_invocation_while_stopped ops _ rfl ha

/-- Witness for C7 at a concrete run: from a running task, stop followed by
two ticks and another stop invokes the callback in no step. -/
theorem task_loop_start_stop_witness :
    ∀ inv ∈ (runTask (taskStep { running := true, hasTask := true } .stop).1
               [TaskOp.tick, TaskOp.stop, TaskOp.tick]).2, inv = false := by
  exact (task_loop_start_stop { running := true, hasTask := true }
    [TaskOp.tick, TaskOp.stop, TaskOp.tick]).2.2.2 (by decide)

/-- C9 as stated is false: with the registered command table nonempty, a
message whose content is the bare prefix character "!" (or the prefix
followed only by whitespace) makes process_command raise an IndexError at
cmd_parts[0], instead of being a silent no-op. -/
theorem process_command_bare_prefix_raises :
    process_command [("help", 1)] "!" = Except.error BotError.indexError ∧
    process_command [("help", 1)] "!   " = Except.error BotError.indexError := by
  constructor <;> rfl

/-- C9 amended: a message that does not start with the prefix, or whose
first whitespace-delimited token after the prefix is not a registered
command, is a silent no-op (provided at least one token exists after the
prefix; a bare or whitespace-only prefix raises an IndexError instead); and
trigger_event on an event with no handler and no listeners invokes
nothing. -/
theorem unknown_command_and_event_noop (commands : List (String × Nat))
    (event_handlers : List (String × Nat)) (listeners : List (String × List Nat))
    (content : String) (event_name : String) :
    (content.toList.head? ≠ some '!' → process_command commands content = .ok none) ∧
    (∀ rest cmd_name toks, content.toList = '!' :: rest →
       pySplitWs rest = cmd_name :: toks → dictGet commands cmd_name = none →
       process_command commands content = .ok none) ∧
    (∀ rest, content.toList = '!' :: rest → pySplitWs rest = [] →
       process_command commands content = .error .indexError) ∧
    (dictGet event_handlers event_name = none → dictGet listeners event_name = none →
       trigger_event event_handlers listeners event_name = []) := by
  refine ⟨?_, ?_, ?_, ?_⟩
  · intro h
    unfold process_command
    match hc : content.toList with
    | [] => rfl
    | c :: rest =>
      rw [hc] at h
      have hne : (c == '!') = false := by
        simp only [List.head?_cons, ne_eq, Option.some.injEq] at h
        simp [h]
      show (if c == '!' then process_command_body commands rest else Except.ok none) =
        Except.ok none
      rw [hne]
      rfl
  · intro rest cmd_name toks h1 h2 h3
    unfold process_command
    rw [h1]
    show process_command_body commands rest = Except.ok none
    unfold process_command_body
    rw [h2]
    show (match dictGet commands cmd_name with
          | some h => Except.ok (some h)
          | none => Except.ok none) = Except.ok none
    rw [h3]
  · intro rest h1 h2
    unfold process_command
    rw [h1]
    show process_command_body commands rest = Except.error BotError.indexError
    unfold process_command_body
    rw [h2]
  · intro h1 h2
    unfold trigger_event
    rw [h1, h2]
    rfl

/-- Witness for amended C9 at concrete inputs: a message not starting with
the prefix, an unregistered command with a token, the bare-prefix IndexError,
and an unknown event name. -/
theorem unknown_command_and_event_noop_witness :
    process_command [("help", 1)] "hello" = Except.ok none ∧
    process_command [("help", 1)] "!frobnicate now" = Except.ok none ∧
    process_command [("help", 1)] "!" = Except.error BotError.indexError ∧
    trigger_event [("on_ready", 7)] [("on_message", [8, 9])] "on_weird" = [] := by
  refine ⟨?_, ?_, ?_, ?_⟩
  · exact (unknown_command_and_event_noop [("help", 1)] [] [] "hello" "").1 (by decide)
  · exact (unknown_command_and_event_noop [("help", 1)] [] [] "!frobnicate now" "").2.1
      "frobnicate now".toList "frobnicate" ["now"] (by decide) (by decide) (by decide)
  · exact (unknown_command_and_event_noop [("help", 1)] [] [] "!" "").2.2.1
      [] (by decide) (by decide)
  · exact (unknown_command_and_event_noop [] [("on_ready", 7)] [("on_message", [8, 9])]
      "" "on_weird").2.2.2 (by decide) (by decide)

/-- A substring of the right part of an append is a substring of the
whole. -/
theorem listInfix_append_right (pat l2 : List Char) :
    ∀ l1, listInfix pat l2 = true → listInfix pat (l1 ++ l2) = true := by
  intro l1
  induction l1 with
  | nil => intro h; simpa using h
  | cons c l1 ih =>
    intro h
    simp only [List.cons_append, listInfix, Bool.or_eq_true]
    exact Or.inr (ih h)

/-- containsSub respects an append on the left. -/
theorem containsSub_append_right (s1 s2 pat : String) (h : containsSub s2 pat = true) :
    containsSub (s1 ++ s2) pat = true := by
  unfold containsSub
  have he : (s1 ++ s2).toList = s1.toList ++ s2.toList := String.data_append s1 s2
  rw [he]
  exact listInfix_append_right pat.toList s2.toList s1.toList h

/-- C3: two distinct permission surfaces: add_vote_to_referendum and
create_forum_post raise a permission error for authors lacking the gating
roles (the vote message stating the required role), whereas the feedback
command with a user holding neither dao-team-representative nor Admin never
raises: it replies with the denial ephemerally, changes no guild state and
posts nothing. -/
theorem permission_failure_surfaces
    (users : List (String × MockMember)) (forums : List (String × MockChannel))
    (author_name forum_name title content vote_content message : String)
    (tags : List String) (author : MockMember) (forum : MockChannel)
    (thread : MockThread) (user : MockMember) (ichan : InteractionChannel)
    (config : FeedbackConfig) (guild : MockGuild) (pt : Option MockThread) :
    (dictGet users author_name = some author → has_vote_permission author = false →
      add_vote_to_referendum users thread vote_content author_name =
        .error (.permissionError (voteDeniedMsg author_name)) ∧
      containsSub (voteDeniedMsg author_name) "dao-team-representative" = true) ∧
    (dictGet forums forum_name = some forum → dictGet users author_name = some author →
      forum.restrictedTo.isEmpty = false →
      author.roles.any (fun r => forum.restrictedTo.any (fun rr => rr.id == r.id)) = false →
      create_forum_post forums users title content forum_name author_name tags =
        .error (.permissionError (postDeniedMsg author_name forum_name))) ∧
    (has_representative_role user = false →
      (mock_feedback user ichan message config guild pt).replyContent = feedbackDeniedMsg ∧
      (mock_feedback user ichan message config guild pt).ephemeral = true ∧
      (mock_feedback user ichan message config guild pt).guild = guild ∧
      (mock_feedback user ichan message config guild pt).postedThread = none) := by
  refine ⟨?_, ?_, ?_⟩
  · intro h1 h2
    constructor
    · unfold add_vote_to_referendum
      rw [h1]
      show (if has_vote_permission author then _ else _) = _
      rw [h2]
      rfl
    · unfold voteDeniedMsg
      refine containsSub_append_right _ _ _ (containsSub_append_right _ _ _ ?_)
      decide
  · intro hf hu h3 h4
    unfold create_forum_post
    rw [hf]
    show (match dictGet users author_name with
          | none => _
          | some author => _) = _
    rw [hu]
    show (if !forum.restrictedTo.isEmpty &&
            !(author.roles.any (fun r => forum.restrictedTo.any (fun rr => rr.id == r.id)))
          then _ else _) = _
    rw [h3, h4]
    rfl
  · intro h
    simp [mock_feedback, h]

/-- Witness for C3 at the JAM DAO fixture: participant1 (role
dao-participant) is refused by the vote gate with a message naming the
required role, refused by the restricted forum gate, and the feedback
command answers participant1 with the ephemeral denial reply, leaving the
guild unchanged and posting nothing. -/
theorem permission_failure_surfaces_witness :
    (add_vote_to_referendum jamUsers w3Thread "!vote yes" "participant1" =
       .error (.permissionError (voteDeniedMsg "participant1")) ∧
     containsSub (voteDeniedMsg "participant1") "dao-team-representative" = true) ∧
    (create_forum_post w4Forums jamUsers "Post" "content" "referendas" "participant1" [] =
       .error (.permissionError (postDeniedMsg "participant1" "referendas"))) ∧
    ((mock_feedback w3Participant (.thread w3Thread) "hi" w3Config w10Guild none).replyContent
        = feedbackDeniedMsg ∧
     (mock_feedback w3Participant (.thread w3Thread) "hi" w3Config w10Guild none).guild
        = w10Guild ∧
     (mock_feedback w3Participant (.thread w3Thread) "hi" w3Config w10Guild none).postedThread
        = none) := by
  refine ⟨?_, ?_, ?_⟩
  · exact (permission_failure_surfaces jamUsers [] "participant1" "" "" "" "!vote yes" ""
      [] w3Participant w4Forum w3Thread w3Participant (.thread w3Thread)
      w3Config w10Guild none).1 (by decide) (by decide)
  · exact (permission_failure_surfaces jamUsers w4Forums "participant1" "referendas" "Post"
      "content" "" "" [] w3Participant w4Forum w3Thread w3Participant (.thread w3Thread)
      w3Config w10Guild none).2.1 (by decide) (by decide) (by decide) (by decide)
  · have h := (permission_failure_surfaces jamUsers [] "" "" "" "" "" "hi" []
      w3Participant w4Forum w3Thread w3Participant (.thread w3Thread)
      w3Config w10Guild none).2.2 (by decide)
    exact ⟨h.1, h.2.2.1, h.2.2.2⟩

/-- Every tag produced by resolving tag names against the available tags is
one of the available tags. -/
theorem tag_mem_avail_of_mem_resolved (tags : List String) (avail : List MockForumTag)
    (tg : MockForumTag)
    (h : tg ∈ tags.flatMap (fun tn => avail.filter (fun a => a.name == tn))) :
    tg ∈ avail := by
  rw [List.mem_flatMap] at h
  obtain ⟨tn, _, htg⟩ := h
  exact (List.mem_filter.mp htg).1

/-- C4: create_forum_post fails with a lookup error when the forum or the
author name is absent, with a permission error when the forum has a
non-empty restriction set the author matches no role of, and otherwise
succeeds with a thread whose applied tags are all drawn from the forum's
available tags (unknown tag names having been silently dropped). -/
theorem create_forum_post_lookup_permission_tags
    (forums : List (String × MockChannel)) (users : List (String × MockMember))
    (title content forum_name author_name : String) (tags : List String)
    (forum : MockChannel) (author : MockMember) :
    (dictGet forums forum_name = none →
      create_forum_post forums users title content forum_name author_name tags =
        .error (.valueError ("Forum channel " ++ forum_name ++ " not found"))) ∧
    (dictGet forums forum_name = some forum → dictGet users author_name = none →
      create_forum_post forums users title content forum_name author_name tags =
        .error (.valueError ("User " ++ author_name ++ " not found"))) ∧
    (dictGet forums forum_name = some forum → dictGet users author_name = some author →
      forum.restrictedTo.isEmpty = false →
      author.roles.any (fun r => forum.restrictedTo.any (fun rr => rr.id == r.id)) = false →
      create_forum_post forums users title content forum_name author_name tags =
        .error (.permissionError (postDeniedMsg author_name forum_name))) ∧
    (dictGet forums forum_name = some forum → dictGet users author_name = some author →
      (!forum.restrictedTo.isEmpty &&
        !(author.roles.any (fun r => forum.restrictedTo.any (fun rr => rr.id == r.id))))
          = false →
      ∀ fc t, create_forum_post forums users title content forum_name author_name tags =
          .ok (fc, t) →
        ∀ tg ∈ t.appliedTags, tg ∈ forum.availableTags) := by
  refine ⟨?_, ?_, ?_, ?_⟩
  · intro hf
    unfold create_forum_post
    rw [hf]
  · intro hf hu
    unfold create_forum_post
    rw [hf]
    show (match dictGet users author_name with
          | none => _
          | some author => _) = _
    rw [hu]
  · intro hf hu h3 h4
    unfold create_forum_post
    rw [hf]
    show (match dictGet users author_name with
          | none => _
          | some author => _) = _
    rw [hu]
    show (if !forum.restrictedTo.isEmpty &&
            !(author.roles.any (fun r => forum.restrictedTo.any (fun rr => rr.id == r.id)))
          then _ else _) = _
    rw [h3, h4]
    rfl
  · intro hf hu hcond fc t hok tg htg
    have hval : create_forum_post forums users title content forum_name author_name tags =
        .ok (forum.create_post title content author.toUser
          (tags.flatMap (fun tn => forum.availableTags.filter (fun a => a.name == tn)))) := by
      unfold create_forum_post
      rw [hf]
      show (match dictGet users author_name with
            | none => _
            | some author => _) = _
      rw [hu]
      show (if !forum.restrictedTo.isEmpty &&
              !(author.roles.any (fun r => forum.restrictedTo.any (fun rr => rr.id == r.id)))
            then _ else _) = _
      rw [hcond]
      rfl
    rw [hval] at hok
    have ht : t = (forum.create_post title content author.toUser
        (tags.flatMap (fun tn => forum.availableTags.filter (fun a => a.name == tn)))).2 := by
      have h2 := congrArg (fun e : Except BotError (MockChannel × MockThread) =>
        match e with
        | Except.ok p => some p.2
        | Except.error _ => none) hok
      simpa using h2.symm
    rw [ht] at htg
    exact tag_mem_avail_of_mem_resolved tags forum.availableTags tg htg

/-- Witness for C4 at a concrete referendas forum: missing forum name,
missing author name, restricted-forum refusal of participant1, and a
successful post by dao_rep1 with one known and one unknown tag name whose
resulting applied tag is drawn from the available tags. -/
theorem create_forum_post_lookup_permission_tags_witness :
    (create_forum_post w4Forums jamUsers "T" "c" "missing" "dao_rep1" [] =
       .error (.valueError ("Forum channel " ++ "missing" ++ " not found"))) ∧
    (create_forum_post w4Forums jamUsers "T" "c" "referendas" "ghost" [] =
       .error (.valueError ("User " ++ "ghost" ++ " not found"))) ∧
    (create_forum_post w4Forums jamUsers "T" "c" "referendas" "participant1" ["SmallSpender"] =
       .error (.permissionError (postDeniedMsg "participant1" "referendas"))) ∧
    ({ id := 104, name := "SmallSpender" : MockForumTag } ∈ w4Forum.availableTags) := by
  refine ⟨?_, ?_, ?_, ?_⟩
  · exact (create_forum_post_lookup_permission_tags w4Forums jamUsers "T" "c" "missing"
      "dao_rep1" [] w4Forum w3Participant).1 (by decide)
  · exact (create_forum_post_lookup_permission_tags w4Forums jamUsers "T" "c" "referendas"
      "ghost" [] w4Forum w3Participant).2.1 (by decide) (by decide)
  · exact (create_forum_post_lookup_permission_tags w4Forums jamUsers "T" "c" "referendas"
      "participant1" ["SmallSpender"] w4Forum w3Participant).2.2.1 (by decide) (by decide)
      (by decide) (by decide)
  · exact (create_forum_post_lookup_permission_tags w4Forums jamUsers "T" "c" "referendas"
      "dao_rep1" ["SmallSpender", "Bogus"] w4Forum
      { id := 302, name := "dao_rep1", bot := false, roles := [jamRepRole] }).2.2.2
      (by decide) (by decide) (by decide)
      (w4Forum.create_post "T" "c"
        { id := 302, name := "dao_rep1", bot := false }
        [{ id := 104, name := "SmallSpender" }]).1
      (w4Forum.create_post "T" "c"
        { id := 302, name := "dao_rep1", bot := false }
        [{ id := 104, name := "SmallSpender" }]).2
      (by rfl) { id := 104, name := "SmallSpender" } (by decide)

/-- A digit is not whitespace. -/
theorem digit_not_whitespace (c : Char) (h : c.isDigit = true) : c.isWhitespace = false := by
  cases hw : c.isWhitespace
  · rfl
  · exfalso
    have hw2 : ((c = ' ' ∨ c = '\t') ∨ c = '\r') ∨ c = '\n' := by
      simpa [Char.isWhitespace] using hw
    rcases hw2 with ((h2 | h2) | h2) | h2 <;> (subst h2; exact absurd h (by decide))

theorem matchesRef_of_extract (name num : List Char)
    (hhead : name.head? ≠ some '#')
    (hex : extractRefNumberL name = some num) :
    matchesRefPatternL num ('R' :: 'e' :: 'f' :: ' ' :: name) = true := by
  unfold extractRefNumberL at hex
  have hb : (name.head? == some '#') = false := beq_eq_false_iff_ne.mpr hhead
  rw [hb] at hex
  simp only [Bool.false_eq_true, if_false] at hex
  by_cases hde : (name.takeWhile Char.isDigit).isEmpty
  · simp [hde] at hex
  · have hde2 : (name.takeWhile Char.isDigit).isEmpty = false := by
      simpa using hde
    by_cases hcol : ((name.dropWhile Char.isDigit).head? == some ':') = true
    · rw [hde2, hcol] at hex
      simp only [Bool.false_eq_true, if_false, if_true, Option.some.injEq] at hex
      -- hex : name.takeWhile Char.isDigit = num
      -- the head of name is a digit, hence not whitespace
      match hn : name, hex with
      | [], hex2 => simp [hn] at hde2
      | c :: r, hex2 =>
        have hcd : c.isDigit = true := by
          by_contra hcd2
          have hcf : c.isDigit = false := by simpa using hcd2
          simp [List.takeWhile_cons, hcf] at hde2
        have hcw : c.isWhitespace = false := digit_not_whitespace c hcd
        have hws : Char.isWhitespace ' ' = true := by decide
        unfold matchesRefPatternL
        show (!(List.takeWhile Char.isWhitespace (' ' :: c :: r)).isEmpty &&
          (num ++ [':']).isPrefixOf (List.dropWhile Char.isWhitespace (' ' :: c :: r))) = true
        simp only [List.takeWhile_cons, List.dropWhile_cons, hws, hcw, if_true,
          Bool.false_eq_true, if_false, List.isEmpty_cons, Bool.not_false, Bool.true_and]
        -- it remains that num ++ [':'] is a prefix of c :: r
        have hsplit : c :: r = num ++ List.dropWhile Char.isDigit (c :: r) := by
          rw [← hex2]
          exact (List.takeWhile_append_dropWhile Char.isDigit (c :: r)).symm
        obtain ⟨c2, r2, hdw⟩ : ∃ c2 r2, List.dropWhile Char.isDigit (c :: r) = c2 :: r2 := by
          match hd : List.dropWhile Char.isDigit (c :: r) with
          | [] => rw [hd] at hcol; simp at hcol
          | c2 :: r2 => exact ⟨c2, r2, rfl⟩
        have hc2 : c2 = ':' := by
          rw [hdw] at hcol
          simpa using hcol
        rw [List.isPrefixOf_iff_prefix]
        rw [hsplit, hdw, hc2]
        exact ⟨r2, by simp⟩
    · have hcol2 : ((name.dropWhile Char.isDigit).head? == some ':') = false := by
        simpa using hcol
      rw [hde2, hcol2] at hex
      simp at hex

/-- updateFirst rewrites exactly the element find? locates: if p is stable
under f, scanning the updated list finds the updated element. -/
theorem updateFirst_find? {α : Type} (p : α → Bool) (f : α → α)
    (hp : ∀ a, p a = true → p (f a) = true) :
    ∀ (l : List α) (x : α), l.find? p = some x →
      (updateFirst p f l).find? p = some (f x) := by
  intro l
  induction l with
  | nil => intro x h; simp [List.find?] at h
  | cons a l ih =>
    intro x h
    by_cases ha : p a = true
    · rw [List.find?_cons_of_pos _ ha] at h
      injection h with h
      subst h
      unfold updateFirst
      rw [if_pos ha]
      exact List.find?_cons_of_pos _ (hp a ha)
    · rw [List.find?_cons_of_neg _ ha] at h
      unfold updateFirst
      rw [if_neg ha]
      rw [List.find?_cons_of_neg _ ha]
      exact ih x h

/-- postFeedbackInChannel never changes the channel's name. -/
theorem postFeedbackInChannel_name (c : MockChannel) (number tn msg : String) :
    (postFeedbackInChannel c number tn msg).name = c.name := by
  unfold postFeedbackInChannel
  split <;> rfl

/-- appendFeedbackMsg changes neither name nor parent id, and ends the
message list with the feedback message. -/
theorem appendFeedbackMsg_spec (t : MockThread) (msg : String) :
    (appendFeedbackMsg t msg).name = t.name ∧
    (appendFeedbackMsg t msg).parentId = t.parentId ∧
    (appendFeedbackMsg t msg).messages.getLast? =
      some { id := t.messages.length + 1, content := "**Feedback:** " ++ msg,
             author := { id := 0, name := "JAM-DAO-Bot", bot := true } } := by
  refine ⟨rfl, rfl, ?_⟩
  exact List.getLast?_concat _

/-- Inside the public-discussions channel, posting feedback yields a thread
matching the locator pattern whose last message is the feedback message,
provided the lazily created name would match (which extractRefNumber
guarantees for hash-free thread names). -/
theorem postFeedbackInChannel_posts (pc : MockChannel) (num tname message : String)
    (hstub : matchesRefPattern num ("Ref " ++ tname) = true) :
    ∃ t2 fm, t2 ∈ (postFeedbackInChannel pc num tname message).threads ∧
      matchesRefPattern num t2.name = true ∧
      t2.messages.getLast? = some fm ∧ fm.content = "**Feedback:** " ++ message := by
  unfold postFeedbackInChannel
  split
  next t0 hfind =>
    have hp : ∀ a : MockThread, (fun th => matchesRefPattern num th.name) a = true →
        (fun th => matchesRefPattern num th.name) ((fun th => appendFeedbackMsg th message) a)
          = true := by
      intro a hpa
      show matchesRefPattern num (appendFeedbackMsg a message).name = true
      show matchesRefPattern num a.name = true
      exact hpa
    have hfind2 := updateFirst_find? (fun th => matchesRefPattern num th.name)
      (fun th => appendFeedbackMsg th message) hp pc.threads t0 hfind
    refine ⟨appendFeedbackMsg t0 message,
            { id := t0.messages.length + 1, content := "**Feedback:** " ++ message,
              author := { id := 0, name := "JAM-DAO-Bot", bot := true } }, ?_, ?_, ?_, rfl⟩
    · exact List.mem_of_find?_eq_some hfind2
    · exact @List.find?_some MockThread (fun th => matchesRefPattern num th.name) _ _ hfind2
    · exact List.getLast?_concat _
  next hfind =>
    refine ⟨appendFeedbackMsg (feedbackStubThread pc tname) message,
            { id := 1, content := "**Feedback:** " ++ message,
              author := { id := 0, name := "JAM-DAO-Bot", bot := true } }, ?_, ?_, ?_, rfl⟩
    · simp
    · exact hstub
    · exact List.getLast?_concat _

/-- C5 amended: the feedback command invoked by a representative inside a
thread whose hash-free name yields a referendum number and whose parent id
is the configured referendas forum id posts a feedback-prefixed message into
a public-discussions thread matching the locator pattern (locating an
existing one or lazily creating it), and replies ephemerally with a message
containing "anonymously posted".  (With a leading hash in the thread name
the lazily created thread is named Ref #number..., which the locator
pattern does not match: see the counterexample.) -/
theorem feedback_happy_path (user : MockMember) (t : MockThread) (message num : String)
    (config : FeedbackConfig) (guild : MockGuild) (pc : MockChannel)
    (h1 : has_representative_role user = true)
    (h2 : t.parentId = some config.DISCORD_FORUM_CHANNEL_ID)
    (h3 : extractRefNumber t.name = some num)
    (h4 : t.name.toList.head? ≠ some '#')
    (h5 : guild.channels.find? (fun c => c.name == "public-discussions") = some pc) :
    (mock_feedback user (.thread t) message config guild none).ephemeral = true ∧
    containsSub (mock_feedback user (.thread t) message config guild none).replyContent
      "anonymously posted" = true ∧
    ∃ pc2, (mock_feedback user (.thread t) message config guild none).guild.channels.find?
        (fun c => c.name == "public-discussions") = some pc2 ∧
      ∃ t2 fm, t2 ∈ pc2.threads ∧ matchesRefPattern num t2.name = true ∧
        t2.messages.getLast? = some fm ∧ fm.content = "**Feedback:** " ++ message := by
  have hcond : (t.parentId == some config.DISCORD_FORUM_CHANNEL_ID) = true := by
    rw [h2]; simp
  have hval : mock_feedback user (.thread t) message config guild none =
      { replyContent := feedbackSuccessMsg, ephemeral := true,
        guild := feedbackGuildUpdate guild num t.name message, postedThread := none } := by
    unfold mock_feedback
    rw [h1]
    show (if t.parentId == some config.DISCORD_FORUM_CHANNEL_ID then _ else _) = _
    rw [hcond]
    show (match extractRefNumber t.name with
          | some number => _
          | none => _) = _
    rw [h3]
    show (match guild.channels.find? (fun c => c.name == "public-discussions") with
          | some _ => _
          | none => _) = _
    rw [h5]
  rw [hval]
  refine ⟨rfl, ?_, ?_⟩
  · show containsSub feedbackSuccessMsg "anonymously posted" = true
    decide
  have hp : ∀ a : MockChannel, (fun c => c.name == "public-discussions") a = true →
      (fun c => c.name == "public-discussions")
        ((fun c => postFeedbackInChannel c num t.name message) a) = true := by
    intro a ha
    show ((postFeedbackInChannel a num t.name message).name == "public-discussions") = true
    rw [postFeedbackInChannel_name]
    exact ha
  have hfind2 := updateFirst_find? (fun c => c.name == "public-discussions")
    (fun c => postFeedbackInChannel c num t.name message) hp guild.channels pc h5
  refine ⟨postFeedbackInChannel pc num t.name message, hfind2, ?_⟩
  have hexL : extractRefNumberL t.name.toList = some num.toList := by
    unfold extractRefNumber at h3
    match hE : extractRefNumberL t.name.toList with
    | none => rw [hE] at h3; simp at h3
    | some l =>
      rw [hE] at h3
      simp only [Option.map_some', Option.some.injEq] at h3
      rw [← h3]
      rfl
  have hstub : matchesRefPattern num ("Ref " ++ t.name) = true := by
    unfold matchesRefPattern
    have hdata : ("Ref " ++ t.name).toList = 'R' :: 'e' :: 'f' :: ' ' :: t.name.toList := by
      show ("Ref " ++ t.name).data = _
      rw [String.data_append]
      rfl
    rw [hdata]
    exact matchesRef_of_extract t.name.toList num.toList h4 hexL
  exact postFeedbackInChannel_posts pc num t.name message hstub

/-- Witness for amended C5: dao_rep1 invoking feedback in the thread named
"123: Treasury Spend" parented to the referendas forum id 201. -/
theorem feedback_happy_path_witness :
    (mock_feedback w5User (.thread w5Thread) "Looks good" w3Config w5Guild none).ephemeral
      = true ∧
    containsSub (mock_feedback w5User (.thread w5Thread) "Looks good" w3Config w5Guild
      none).replyContent "anonymously posted" = true ∧
    ∃ pc2, (mock_feedback w5User (.thread w5Thread) "Looks good" w3Config w5Guild
        none).guild.channels.find? (fun c => c.name == "public-discussions") = some pc2 ∧
      ∃ t2 fm, t2 ∈ pc2.threads ∧ matchesRefPattern "123" t2.name = true ∧
        t2.messages.getLast? = some fm ∧ fm.content = "**Feedback:** " ++ "Looks good" :=
  feedback_happy_path w5User w5Thread "Looks good" "123" w3Config w5Guild w5Pub
    (by decide) (by decide) (by decide) (by decide) (by decide)

/-- C5 as stated is false for hash-prefixed thread names: invoked in the
thread named "#123: Treasury Spend", the command reports success and appends
the feedback message to a lazily created thread named
"Ref #123: Treasury Spend", but no thread of the guild matches the locator
pattern Ref-whitespace-123-colon, so the message was not appended to a
thread matching that pattern. -/
theorem feedback_hash_thread_breaks_locator :
    containsSub (mock_feedback w5User (.thread w5HashThread) "great" w3Config w5Guild
      none).replyContent "anonymously posted" = true ∧
    ((mock_feedback w5User (.thread w5HashThread) "great" w3Config w5Guild
        none).guild.channels.any (fun c => c.name == "public-discussions" &&
          c.threads.any (fun th => th.name == "Ref #123: Treasury Spend" &&
            th.messages.any (fun m => m.content == "**Feedback:** great")))) = true ∧
    ((mock_feedback w5User (.thread w5HashThread) "great" w3Config w5Guild
        none).guild.channels.any (fun c =>
          c.threads.any (fun th => matchesRefPattern "123" th.name))) = false := by
  refine ⟨?_, ?_, ?_⟩ <;> decide

/-- C6 amended: every thread created through MockThread (create_thread and
create_post) has parent_id equal to its parent channel's id, creation
preserves the invariant for the whole thread list, the channel id never
changes, and the message operations (thread send, feedback append) leave
parent ids untouched.  The stub threads the feedback command creates lazily
are bare mocks with no integer parent_id and break the invariant: see the
counterexample. -/
theorem thread_parent_id_under_entity_ops (c : MockChannel) (name title content : String)
    (author : MockUser) (tags : List MockForumTag) (t : MockThread) (msg : String)
    (author2 : MockUser) :
    ((c.create_thread name).2.parentId = some c.id) ∧
    ((c.create_thread name).1.id = c.id) ∧
    ((c.create_post title content author tags).2.parentId = some c.id) ∧
    ((c.create_post title content author tags).1.id = c.id) ∧
    ((∀ t2 ∈ c.threads, t2.parentId = some c.id) →
      ∀ t2 ∈ (c.create_thread name).1.threads, t2.parentId = some c.id) ∧
    ((∀ t2 ∈ c.threads, t2.parentId = some c.id) →
      ∀ t2 ∈ (c.create_post title content author tags).1.threads, t2.parentId = some c.id) ∧
    ((t.send msg author2).1.parentId = t.parentId) ∧
    ((appendFeedbackMsg t msg).parentId = t.parentId) := by
  refine ⟨rfl, rfl, rfl, rfl, ?_, ?_, rfl, rfl⟩
  · intro h t2 ht2
    rcases List.mem_append.mp ht2 with h2 | h2
    · exact h t2 h2
    · rw [List.mem_singleton.mp h2]
  · intro h t2 ht2
    rcases List.mem_append.mp ht2 with h2 | h2
    · exact h t2 h2
    · rw [List.mem_singleton.mp h2]

/-- Witness for amended C6 at a concrete channel: creating a thread and a
post in w5Pub yields parent id 203 everywhere, starting from its empty
thread list. -/
theorem thread_parent_id_under_entity_ops_witness :
    ((w5Pub.create_thread "general-talk").2.parentId = some w5Pub.id) ∧
    ((w5Pub.create_post "9: Title" "body" botUser []).2.parentId = some w5Pub.id) ∧
    (∀ t2 ∈ (w5Pub.create_thread "general-talk").1.threads, t2.parentId = some w5Pub.id) := by
  refine ⟨(thread_parent_id_under_entity_ops w5Pub "general-talk" "9: Title" "body" botUser
    [] w5Thread "m" botUser).1, ?_, ?_⟩
  · exact (thread_parent_id_under_entity_ops w5Pub "general-talk" "9: Title" "body" botUser
      [] w5Thread "m" botUser).2.2.1
  · exact (thread_parent_id_under_entity_ops w5Pub "general-talk" "9: Title" "body" botUser
      [] w5Thread "m" botUser).2.2.2.2.1 (by decide)

/-- C6 as stated is false after a feedback posting that lazily creates the
public-discussions thread: the created thread sits in the channel with id
203 but has no integer parent_id at all (it is a bare mock), so its
parent_id does not equal its parent channel's id. -/
theorem feedback_stub_thread_breaks_parent_id :
    ((mock_feedback w5User (.thread w5Thread) "m" w3Config w5Guild none).guild.channels.any
      (fun c => c.name == "public-discussions" &&
        c.threads.any (fun th => th.parentId != some c.id))) = true ∧
    (w5Guild.channels.all (fun c =>
      c.threads.all (fun th => th.parentId == some c.id))) = true := by
  constructor <;> decide
